import Mathlib

/-!
Verification of the parameterized SQL execution helper of the pyBatch
repository (the `MsSqlDataBase` class of `src/config/database.py`, with the
near-duplicate `SqlServerDB` of `src/common/sqlserverdb.py`, and the
`SqlHelper._convert_named_to_qmark` routine of `src/sqlhelper.py`).

The embedding is shallow:
* the regular-expression scans `re.findall(r':(\w+)', sql)` /
  `re.sub(r':(\w+)', '?', sql)` (database.py lines 77-80) and
  `re.sub(r'[:@]([A-Za-z_][A-Za-z0-9_]*)', repl, sql)` (sqlhelper.py line 58)
  are embedded as character-list scanners that enumerate exactly the
  non-overlapping left-to-right, maximal-munch matches of those patterns;
* the Python dict comprehension building the name-to-value mapping is
  embedded as a last-write-wins association lookup;
* the executor object (`self.conn`, `self.in_transaction`) together with the
  committed database it talks to is embedded as an explicit state record.
  A live pyodbc connection is represented by its pending (uncommitted) view
  of the store: `cursor.execute` updates the pending view, `conn.commit()`
  publishes the pending view to the committed store, `conn.rollback()`
  resets the pending view to the committed store.  The effect of an SQL
  statement on the store is an abstract parameter `app`, and the result of a
  query an abstract parameter `runQuery`, since the SQL engine itself is an
  external collaborator.
-/

/-- Python `\w` on the ASCII identifiers the statements use:
letters, digits, underscore (database.py line 77). -/
def isWordChar (c : Char) : Bool := c.isAlpha || c.isDigit || c = '_'

/-- First character of `[A-Za-z_][A-Za-z0-9_]*` (sqlhelper.py line 58). -/
def isIdentStart (c : Char) : Bool := c.isAlpha || c = '_'

/-- One unit of statement text as seen by the placeholder regex: either a
literal character left untouched, or a matched named placeholder consisting
of its marker character and the identifier characters. -/
inductive SqlTok where
  | lit (c : Char)
  | ph (marker : Char) (name : List Char)
deriving Repr, DecidableEq

/-- Pending state of the scanner for `:(\w+)`: `none` when not inside a
candidate match, `some w` when a colon was read and `w` holds the word
characters collected so far, in reverse. -/
def flushColon : Option (List Char) → List SqlTok
  | none => []
  | some [] => [.lit ':']
  | some w => [.ph ':' w.reverse]

/-- Left-to-right scanner for the regex `:(\w+)` used by
`MsSqlDataBase._convert_named_params` (database.py line 77): a colon followed
by a maximal nonempty run of word characters is a match (greedy `\w+`);
a colon not followed by a word character, and every other character, is
literal text.  Matches are non-overlapping and taken in order of
appearance, exactly as `re.findall` / `re.sub` enumerate them. -/
def mssqlScan (acc : Option (List Char)) : List Char → List SqlTok
  | [] => flushColon acc
  | c :: rest =>
    if isWordChar c then
      match acc with
      | some w => mssqlScan (some (c :: w)) rest
      | none => .lit c :: mssqlScan none rest
    else
      flushColon acc ++
        if c = ':' then mssqlScan (some []) rest
        else .lit c :: mssqlScan none rest

/-- Token stream of a statement under the pattern `:(\w+)`. -/
def mssqlTokens (l : List Char) : List SqlTok := mssqlScan none l

/-- Pending state of the scanner for `[:@]([A-Za-z_][A-Za-z0-9_]*)`:
outside any candidate match; right after a marker character; or inside the
identifier of a match (marker plus identifier characters in reverse). -/
inductive HScan where
  | out
  | mark (m : Char)
  | ident (m : Char) (revName : List Char)
deriving Repr, DecidableEq

/-- Emit the tokens of a pending scanner state at a match boundary. -/
def flushHelper : HScan → List SqlTok
  | .out => []
  | .mark m => [.lit m]
  | .ident m w => [.ph m w.reverse]

/-- Left-to-right scanner for the regex `[:@]([A-Za-z_][A-Za-z0-9_]*)` used
by `SqlHelper._convert_named_to_qmark` (sqlhelper.py line 58): a colon or
at-sign followed by an identifier (letter or underscore, then word
characters, greedy) is a match; a marker not followed by an identifier
start, and every other character, is literal text. -/
def helperScan (st : HScan) : List Char → List SqlTok
  | [] => flushHelper st
  | c :: rest =>
    let step : List SqlTok :=
      if c = ':' ∨ c = '@' then helperScan (.mark c) rest
      else .lit c :: helperScan .out rest
    match st with
    | .ident m w =>
      if isWordChar c then helperScan (.ident m (c :: w)) rest
      else .ph m w.reverse :: step
    | .mark m =>
      if isIdentStart c then helperScan (.ident m [c]) rest
      else .lit m :: step
    | .out => step

/-- Token stream of a statement under the pattern
`[:@]([A-Za-z_][A-Za-z0-9_]*)`. -/
def helperTokens (l : List Char) : List SqlTok := helperScan .out l

/-- Reassemble the original statement text from its tokens. -/
def origRender : List SqlTok → List Char
  | [] => []
  | .lit c :: ts => c :: origRender ts
  | .ph m w :: ts => m :: (w ++ origRender ts)

/-- Statement text after `re.sub(pattern, '?', sql)`: each match becomes a
single question mark, literal characters are kept. -/
def qmarkRender : List SqlTok → List Char
  | [] => []
  | .lit c :: ts => c :: qmarkRender ts
  | .ph _ _ :: ts => '?' :: qmarkRender ts

/-- Captured identifiers of the matches, in left-to-right order
(`re.findall` returns the capture group of each match). -/
def phNames (ts : List SqlTok) : List String :=
  ts.filterMap fun t => match t with
    | .ph _ w => some (String.mk w)
    | .lit _ => none

/-- `re.findall(r':(\w+)', sql)` (database.py line 78). -/
def mssqlFindall (sql : String) : List String := phNames (mssqlTokens sql.data)

/-- `re.sub(r':(\w+)', '?', sql)` (database.py line 80). -/
def mssqlSub (sql : String) : String := String.mk (qmarkRender (mssqlTokens sql.data))

/-- Captured identifiers collected by the `repl` callback of sqlhelper.py
lines 54-58, in substitution (left-to-right) order. -/
def helperFindall (sql : String) : List String := phNames (helperTokens sql.data)

/-- Statement text produced by `re.sub(r'[:@](...)', repl, sql)`
(sqlhelper.py line 58); `repl` returns a question mark for every match. -/
def helperSub (sql : String) : String := String.mk (qmarkRender (helperTokens sql.data))

-- Sanity checks of the scanners on concrete statements.
example : mssqlSub "VALUES(:k,:v)" = "VALUES(?,?)" := by decide
example : mssqlFindall "VALUES(:k,:v)" = ["k", "v"] := by decide
example : mssqlSub "a@b" = "a@b" := by decide
example : helperSub "a@b AND :x1" = "a? AND ?" := by decide
example : helperFindall "a@b AND :x1" = ["b", "x1"] := by decide
example : helperSub ":123" = ":123" := by decide
example : mssqlFindall ":123" = ["123"] := by decide
example : mssqlFindall "::x" = ["x"] := by decide
example : mssqlSub "::x" = ":?" := by decide

deriving instance DecidableEq for Except

/-- Errors of the executor, per the error taxonomy the helper realizes:
`unboundParameter` is the `KeyError` raised by `param_dict[name]`
(database.py line 79, sqlhelper.py line 59) when a referenced identifier has
no supplied parameter; `noActiveConnection` is the `RuntimeError` raised by
`commit()` with no live connection (database.py lines 62-63). -/
inductive DBError where
  | unboundParameter (name : String)
  | noActiveConnection
deriving Repr, DecidableEq

/-- `MsSqlParameter` (database.py lines 9-12) and the identical
`SqlParameter` (sqlhelper.py lines 7-10, sqlserverdb.py lines 8-11): a name
and a value.  The value type is a type parameter, Python being untyped. -/
structure MsSqlParameter (α : Type) where
  param_name : String
  param_value : α
deriving Repr, DecidableEq

/-- Lookup in `param_dict = {p.param_name: p.param_value for p in params}`
(database.py line 76): a Python dict comprehension lets a later binding of
the same name overwrite an earlier one, so the lookup returns the value of
the last parameter carrying the name. -/
def paramDictLookup {α : Type} (params : List (MsSqlParameter α)) (name : String) :
    Option α :=
  (params.reverse.find? fun p => p.param_name == name).map fun p => p.param_value

/-- `[param_dict[name] for name in matches]` (database.py line 79):
look every matched identifier up in order; the first identifier with no
binding raises `KeyError(name)`, embedded as `unboundParameter name`. -/
def lookupValues {α : Type} (params : List (MsSqlParameter α)) :
    List String → Except DBError (List α)
  | [] => .ok []
  | n :: ns =>
    match paramDictLookup params n with
    | none => .error (.unboundParameter n)
    | some v =>
      match lookupValues params ns with
      | .ok vs => .ok (v :: vs)
      | .error e => .error e

/-- `MsSqlDataBase._convert_named_params` (database.py lines 73-81):
with no parameters the statement passes through unscanned; otherwise the
identifiers matched by `:(\w+)` are looked up in order (raising on the
first unbound one) and every match is replaced by a question mark. -/
def convert_named_params {α : Type} (sql : String) (params : List (MsSqlParameter α)) :
    Except DBError (String × List α) :=
  if params.isEmpty then .ok (sql, [])
  else
    match lookupValues params (mssqlFindall sql) with
    | .error e => .error e
    | .ok vs => .ok (mssqlSub sql, vs)

/-- `SqlHelper._convert_named_to_qmark` (sqlhelper.py lines 48-60): same
shape with the two-marker pattern `[:@]([A-Za-z_][A-Za-z0-9_]*)`.  The
Python code performs the substitution before the lookups; the pair returned
on success and the exception raised on an unbound identifier are the same
either way. -/
def convert_named_to_qmark {α : Type} (sql : String) (params : List (MsSqlParameter α)) :
    Except DBError (String × List α) :=
  if params.isEmpty then .ok (sql, [])
  else
    match lookupValues params (helperFindall sql) with
    | .error e => .error e
    | .ok vs => .ok (helperSub sql, vs)

example :
    convert_named_params "INSERT INTO T(k,v) VALUES(:k,:v)"
      [⟨"k", "a"⟩, ⟨"v", "1"⟩] =
    .ok ("INSERT INTO T(k,v) VALUES(?,?)", ["a", "1"]) := by decide

example :
    convert_named_to_qmark "SELECT * FROM users WHERE age>:age"
      [⟨"age", (20 : Int)⟩] =
    .ok ("SELECT * FROM users WHERE age>?", [20]) := by decide

example :
    convert_named_params "x = :a AND y = :missing" [⟨"a", (1 : Int)⟩] =
    .error (.unboundParameter "missing") := by decide

example :
    convert_named_params "x = :a AND x = :a" [⟨"a", (1 : Int)⟩, ⟨"a", 2⟩] =
    .ok ("x = ? AND x = ?", [2, 2]) := by decide

/-- State of one `MsSqlDataBase` instance together with the committed data
store it talks to.  `store` is the committed database state (type parameter
`σ`); `conn` is `self.conn`: `none` embeds `None`, `some p` embeds a live
pyodbc connection with `autocommit = False` whose pending (uncommitted)
view of the store is `p`; `in_transaction` is `self.in_transaction`.
Liveness probing (`_is_connection_closed`, database.py lines 33-42) runs
`SELECT 1` on the live connection, which succeeds in this model, so a
`some` connection is never detected as dead. -/
structure Exec (σ : Type) where
  store : σ
  conn : Option σ
  in_transaction : Bool
deriving Repr, DecidableEq

namespace MsSqlDataBase

variable {σ α : Type}

/-- `__init__` (database.py lines 18-22): no connection, flag false.  The
committed store the instance will talk to is the model's extra component. -/
def init (store : σ) : Exec σ :=
  { store := store, conn := none, in_transaction := false }

/-- `connect` (database.py lines 24-31): if `self.conn` is `None` (or the
connection is detected dead, which a live modeled connection never is),
open a fresh connection — its pending view starts at the committed store,
`autocommit` is turned off, and `in_transaction` resets to false.
Otherwise nothing changes. -/
def connect (s : Exec σ) : Exec σ :=
  match s.conn with
  | some _ => s
  | none => { s with conn := some s.store, in_transaction := false }

/-- `close` (database.py lines 44-53): with no connection, do nothing.
With a connection, first `self.conn.rollback()` when still in a
transaction (the pending view falls back to the committed store), then
release the handle and reset the flag. -/
def close (s : Exec σ) : Exec σ :=
  match s.conn with
  | none => s
  | some _ =>
    let s1 := if s.in_transaction then { s with conn := some s.store } else s
    { s1 with conn := none, in_transaction := false }

/-- `begin_transaction` (database.py lines 56-59): ensure a connection,
then raise the flag. -/
def begin_transaction (s : Exec σ) : Exec σ :=
  let s1 := connect s
  { s1 with in_transaction := true }

/-- `commit` (database.py lines 61-65): with no connection raise
`RuntimeError`; otherwise `self.conn.commit()` publishes the pending view
to the committed store and the flag resets. -/
def commit (s : Exec σ) : Except DBError (Exec σ) :=
  match s.conn with
  | none => .error .noActiveConnection
  | some p => .ok { s with store := p, conn := some p, in_transaction := false }

/-- `rollback` (database.py lines 67-70): `self.conn.rollback()` only when
a connection exists (the pending view falls back to the committed store);
the flag resets unconditionally; never an error. -/
def rollback (s : Exec σ) : Exec σ :=
  match s.conn with
  | none => { s with in_transaction := false }
  | some _ => { s with conn := some s.store, in_transaction := false }

/-- `_process_parameters` (database.py lines 83-90): `None` passes the
statement through with no values; a list whose head is an `MsSqlParameter`
(in this model, any nonempty parameter list) goes through
`_convert_named_params`; the empty list passes through with no values.
`cursor.execute(sql, params) if params else cursor.execute(sql)` makes an
empty value list equivalent to executing with no parameters, so the
pass-through cases both yield `[]`. -/
def process_parameters (sql : String) (params : Option (List (MsSqlParameter α))) :
    Except DBError (String × List α) :=
  match params with
  | none => .ok (sql, [])
  | some ps =>
    if ps.isEmpty then .ok (sql, [])
    else convert_named_params sql ps

/-- `execute` (database.py lines 93-107): connect, convert parameters
(a `KeyError` propagates before anything runs, the cursor is merely
closed), run the statement on the connection's pending view via the
abstract engine `app` (which also yields `cursor.rowcount`), then
auto-commit unless `in_transaction` is set.  The returned state is the
object and store after the call; the `Except` carries the affected-row
count or the raised error.  The `none` connection branch after `connect`
is unreachable (`connect` always installs a connection). -/
def execute (app : σ → String → List α → σ × Int) (s : Exec σ) (sql : String)
    (params : Option (List (MsSqlParameter α))) : Exec σ × Except DBError Int :=
  let s1 := connect s
  match s1.conn with
  | none => (s1, .error .noActiveConnection)
  | some pending =>
    match process_parameters sql params with
    | .error e => (s1, .error e)
    | .ok (sql2, vals) =>
      let r := app pending sql2 vals
      if s1.in_transaction then
        ({ s1 with conn := some r.1 }, .ok r.2)
      else
        ({ s1 with conn := some r.1, store := r.1 }, .ok r.2)

/-- Python `dict(zip(columns, row))`: `zip` truncates to the shorter list;
a duplicate column name keeps its first position but its value is
overwritten by the later occurrence. -/
def dictInsert {α : Type} (d : List (String × α)) (k : String) (v : α) :
    List (String × α) :=
  if d.any fun kv => kv.1 == k then
    d.map fun kv => if kv.1 == k then (k, v) else kv
  else d ++ [(k, v)]

/-- Build the ordered column-name-to-value mapping of one result row
(database.py lines 117-118 and 131-132). -/
def dictZip {α : Type} (cols : List String) (row : List α) : List (String × α) :=
  (List.zip cols row).foldl (fun d kv => dictInsert d kv.1 kv.2) []

/-- `fetch_one` (database.py lines 109-121): connect, convert parameters,
run the query via the abstract engine `runQuery` (columns of
`cursor.description` and the rows), take the first row if any and zip it
with the column names; no commit or rollback anywhere.  A result row
returned by the driver is a nonempty tuple of column values, so
`if row:` distinguishes a row from `None`. -/
def fetch_one (runQuery : σ → String → List α → List String × List (List α))
    (s : Exec σ) (sql : String) (params : Option (List (MsSqlParameter α))) :
    Exec σ × Except DBError (Option (List (String × α))) :=
  let s1 := connect s
  (s1,
    match s1.conn with
    | none => .error .noActiveConnection
    | some pending =>
      match process_parameters sql params with
      | .error e => .error e
      | .ok (sql2, vals) =>
        let q := runQuery pending sql2 vals
        match q.2 with
        | [] => .ok none
        | r :: _ => .ok (some (dictZip q.1 r)))

/-- `fetch_all` (database.py lines 123-135): as `fetch_one`, but each row
of a nonempty result is zipped with the column names; an empty result
yields the empty list; no commit or rollback anywhere. -/
def fetch_all (runQuery : σ → String → List α → List String × List (List α))
    (s : Exec σ) (sql : String) (params : Option (List (MsSqlParameter α))) :
    Exec σ × Except DBError (List (List (String × α))) :=
  let s1 := connect s
  (s1,
    match s1.conn with
    | none => .error .noActiveConnection
    | some pending =>
      match process_parameters sql params with
      | .error e => .error e
      | .ok (sql2, vals) =>
        let q := runQuery pending sql2 vals
        match q.2 with
        | [] => .ok []
        | r :: rs => .ok ((r :: rs).map (dictZip q.1)))

/-- `_convert_named_params` as the method it is in the source: it reads and
writes no attribute of `self`, so as a state transformer it returns the
instance state unchanged alongside the pure conversion result. -/
def convert_named_params_method (s : Exec σ) (sql : String)
    (params : List (MsSqlParameter α)) :
    Exec σ × Except DBError (String × List α) :=
  (s, convert_named_params sql params)

end MsSqlDataBase

/-! Faithfulness of the scanners: the token stream reassembles to exactly
the input text, so the question-mark substitution rewrites the statement in
place, replacing precisely the matched placeholders and nothing else. -/

theorem origRender_append (a b : List SqlTok) :
    origRender (a ++ b) = origRender a ++ origRender b := by
  induction a with
  | nil => rfl
  | cons t ts ih => cases t <;> simp [origRender, ih]

/-- Text still owed by a pending colon-scanner state. -/
def colonAccOrig : Option (List Char) → List Char
  | none => []
  | some w => ':' :: w.reverse

theorem flushColon_orig (acc : Option (List Char)) :
    origRender (flushColon acc) = colonAccOrig acc := by
  cases acc with
  | none => rfl
  | some w => cases w <;> simp [flushColon, colonAccOrig, origRender]

theorem mssqlScan_orig (l : List Char) :
    ∀ acc, origRender (mssqlScan acc l) = colonAccOrig acc ++ l := by
  induction l with
  | nil =>
    intro acc
    simpa [mssqlScan] using flushColon_orig acc
  | cons c rest ih =>
    intro acc
    by_cases hw : isWordChar c
    · cases acc with
      | none => simp [mssqlScan, hw, origRender, ih, colonAccOrig]
      | some w => simp [mssqlScan, hw, ih, colonAccOrig]
    · by_cases hc : c = ':'
      · subst hc
        simp [mssqlScan, hw, origRender_append, flushColon_orig, ih, colonAccOrig]
      · simp [mssqlScan, hw, hc, origRender_append, flushColon_orig, ih,
          origRender, colonAccOrig]

/-- The colon-pattern tokens of a statement spell out the statement. -/
theorem mssqlTokens_orig (l : List Char) : origRender (mssqlTokens l) = l := by
  simpa [mssqlTokens, colonAccOrig] using mssqlScan_orig l none

/-- Text still owed by a pending two-marker-scanner state. -/
def hScanOrig : HScan → List Char
  | .out => []
  | .mark m => [m]
  | .ident m w => m :: w.reverse

theorem flushHelper_orig (st : HScan) :
    origRender (flushHelper st) = hScanOrig st := by
  cases st <;> simp [flushHelper, hScanOrig, origRender]

theorem helperScan_orig (l : List Char) :
    ∀ st, origRender (helperScan st l) = hScanOrig st ++ l := by
  induction l with
  | nil =>
    intro st
    simpa [helperScan] using flushHelper_orig st
  | cons c rest ih =>
    intro st
    cases st with
    | out =>
      by_cases hm : c = ':' ∨ c = '@'
      · simp [helperScan, hm, ih, hScanOrig, origRender]
      · simp [helperScan, hm, ih, hScanOrig, origRender]
    | mark m =>
      by_cases hs : isIdentStart c
      · simp [helperScan, hs, ih, hScanOrig, origRender]
      · by_cases hm : c = ':' ∨ c = '@'
        · simp [helperScan, hs, hm, ih, hScanOrig, origRender]
        · simp [helperScan, hs, hm, ih, hScanOrig, origRender]
    | ident m w =>
      by_cases hw : isWordChar c
      · simp [helperScan, hw, ih, hScanOrig]
      · by_cases hm : c = ':' ∨ c = '@'
        · simp [helperScan, hw, hm, ih, hScanOrig, origRender]
        · simp [helperScan, hw, hm, ih, hScanOrig, origRender]

/-- The two-marker-pattern tokens of a statement spell out the statement. -/
theorem helperTokens_orig (l : List Char) : origRender (helperTokens l) = l := by
  simpa [helperTokens, hScanOrig] using helperScan_orig l .out

/-! Lookup traversal: success and failure of
`[param_dict[name] for name in matches]`. -/

theorem lookupValues_ok_of_bound {α : Type} (params : List (MsSqlParameter α)) :
    ∀ ns : List String, (∀ n ∈ ns, (paramDictLookup params n).isSome) →
      ∃ vs, lookupValues params ns = .ok vs ∧ vs.length = ns.length ∧
        ∀ i (h1 : i < ns.length) (h2 : i < vs.length),
          paramDictLookup params (ns.get ⟨i, h1⟩) = some (vs.get ⟨i, h2⟩) := by
  intro ns
  induction ns with
  | nil =>
    intro _
    exact ⟨[], rfl, rfl, fun i h1 _ => absurd h1 (Nat.not_lt_zero i)⟩
  | cons n ns ih =>
    intro hb
    obtain ⟨v, hv⟩ := Option.isSome_iff_exists.mp (hb n (List.mem_cons_self n ns))
    obtain ⟨vs, hvs, hlen, hidx⟩ := ih fun m hm => hb m (List.mem_cons_of_mem n hm)
    refine ⟨v :: vs, ?_, by simp [hlen], ?_⟩
    · simp [lookupValues, hv, hvs]
    · intro i h1 h2
      match i with
      | 0 => simpa using hv
      | j + 1 =>
        exact hidx j (Nat.lt_of_succ_lt_succ h1) (Nat.lt_of_succ_lt_succ h2)

theorem lookupValues_error_of_unbound {α : Type} (params : List (MsSqlParameter α)) :
    ∀ ns : List String, (∃ x ∈ ns, paramDictLookup params x = none) →
      ∃ n, (ns.find? fun m => (paramDictLookup params m).isNone) = some n ∧
        n ∈ ns ∧ paramDictLookup params n = none ∧
        lookupValues params ns = .error (.unboundParameter n) := by
  intro ns
  induction ns with
  | nil => rintro ⟨x, hx, _⟩; cases hx
  | cons n ns ih =>
    rintro ⟨x, hx, hnone⟩
    cases hl : paramDictLookup params n with
    | none =>
      exact ⟨n, by simp [List.find?, hl], List.mem_cons_self n ns, hl,
        by simp [lookupValues, hl]⟩
    | some v =>
      rcases List.mem_cons.mp hx with rfl | hx2
      · rw [hnone] at hl; cases hl
      · obtain ⟨m, hf, hm, hmn, herr⟩ := ih ⟨x, hx2, hnone⟩
        exact ⟨m, by simp [List.find?, hl, hf], List.mem_cons_of_mem n hm, hmn,
          by simp [lookupValues, hl, herr]⟩

/-! Claim theorems. -/

/-- Claim C1, counterexample: the claim includes at-sign placeholders, but
`MsSqlDataBase._convert_named_params` scans only for `:(\w+)`.  On the
statement `"@x"` with the parameter `x` bound to `0`, the claim as stated
demands the output `("?", [0])` (one substituted positional marker and the
bound value); the code leaves the statement untouched and returns no
values. -/
theorem convert_named_params_at_sign_counterexample :
    convert_named_params "@x" [MsSqlParameter.mk "x" (0 : Int)] = .ok ("@x", []) ∧
    convert_named_params "@x" [MsSqlParameter.mk "x" (0 : Int)] ≠ .ok ("?", [0]) := by
  decide

/-- Claim C1, amended: for `MsSqlDataBase._convert_named_params` the
placeholders are the colon-marker matches of `:(\w+)` only (at-sign tokens
pass through unreplaced and bind no value); with every matched identifier
bound, the result substitutes exactly the N matches with question marks in
original left-to-right order (the token stream reassembles to the input
statement), and the i-th output value is the value the last parameter named
by the i-th match binds.  `SqlHelper._convert_named_to_qmark` satisfies the
same property for both colon and at-sign markers, with identifiers starting
with a letter or underscore. -/
theorem convert_named_params_rewrites_placeholders {α : Type} :
    (∀ (sql : String) (params : List (MsSqlParameter α)), params ≠ [] →
      (∀ n ∈ mssqlFindall sql, (paramDictLookup params n).isSome) →
      ∃ vs, convert_named_params sql params = .ok (mssqlSub sql, vs) ∧
        origRender (mssqlTokens sql.data) = sql.data ∧
        (mssqlSub sql).data = qmarkRender (mssqlTokens sql.data) ∧
        vs.length = (mssqlFindall sql).length ∧
        ∀ i (h1 : i < (mssqlFindall sql).length) (h2 : i < vs.length),
          paramDictLookup params ((mssqlFindall sql).get ⟨i, h1⟩) =
            some (vs.get ⟨i, h2⟩)) ∧
    (∀ (sql : String) (params : List (MsSqlParameter α)), params ≠ [] →
      (∀ n ∈ helperFindall sql, (paramDictLookup params n).isSome) →
      ∃ vs, convert_named_to_qmark sql params = .ok (helperSub sql, vs) ∧
        origRender (helperTokens sql.data) = sql.data ∧
        (helperSub sql).data = qmarkRender (helperTokens sql.data) ∧
        vs.length = (helperFindall sql).length ∧
        ∀ i (h1 : i < (helperFindall sql).length) (h2 : i < vs.length),
          paramDictLookup params ((helperFindall sql).get ⟨i, h1⟩) =
            some (vs.get ⟨i, h2⟩)) := by
  constructor
  · intro sql params hne hb
    have hemp : params.isEmpty = false := by
      simpa [List.isEmpty_iff] using hne
    obtain ⟨vs, hvs, hlen, hidx⟩ := lookupValues_ok_of_bound params (mssqlFindall sql) hb
    refine ⟨vs, ?_, mssqlTokens_orig sql.data, rfl, hlen, hidx⟩
    simp [convert_named_params, hemp, hvs]
  · intro sql params hne hb
    have hemp : params.isEmpty = false := by
      simpa [List.isEmpty_iff] using hne
    obtain ⟨vs, hvs, hlen, hidx⟩ := lookupValues_ok_of_bound params (helperFindall sql) hb
    refine ⟨vs, ?_, helperTokens_orig sql.data, rfl, hlen, hidx⟩
    simp [convert_named_to_qmark, hemp, hvs]

/-- Claim C1, witness: the amended theorem applied to the spec's own
example statement for the colon pattern, and to a mixed-marker statement
for the two-marker pattern. -/
theorem convert_named_params_rewrites_placeholders_witness :
    (∃ vs, convert_named_params "INSERT INTO T(k,v) VALUES(:k,:v)"
        [⟨"k", (1 : Int)⟩, ⟨"v", 2⟩] =
        .ok (mssqlSub "INSERT INTO T(k,v) VALUES(:k,:v)", vs) ∧
      origRender (mssqlTokens "INSERT INTO T(k,v) VALUES(:k,:v)".data) =
        "INSERT INTO T(k,v) VALUES(:k,:v)".data ∧
      (mssqlSub "INSERT INTO T(k,v) VALUES(:k,:v)").data =
        qmarkRender (mssqlTokens "INSERT INTO T(k,v) VALUES(:k,:v)".data) ∧
      vs.length = (mssqlFindall "INSERT INTO T(k,v) VALUES(:k,:v)").length ∧
      ∀ i (h1 : i < (mssqlFindall "INSERT INTO T(k,v) VALUES(:k,:v)").length)
        (h2 : i < vs.length),
        paramDictLookup [⟨"k", (1 : Int)⟩, ⟨"v", 2⟩]
            ((mssqlFindall "INSERT INTO T(k,v) VALUES(:k,:v)").get ⟨i, h1⟩) =
          some (vs.get ⟨i, h2⟩)) ∧
    (∃ vs, convert_named_to_qmark "a=@x AND b=:y" [⟨"x", (1 : Int)⟩, ⟨"y", 2⟩] =
        .ok (helperSub "a=@x AND b=:y", vs) ∧
      origRender (helperTokens "a=@x AND b=:y".data) = "a=@x AND b=:y".data ∧
      (helperSub "a=@x AND b=:y").data =
        qmarkRender (helperTokens "a=@x AND b=:y".data) ∧
      vs.length = (helperFindall "a=@x AND b=:y").length ∧
      ∀ i (h1 : i < (helperFindall "a=@x AND b=:y").length) (h2 : i < vs.length),
        paramDictLookup [⟨"x", (1 : Int)⟩, ⟨"y", 2⟩]
            ((helperFindall "a=@x AND b=:y").get ⟨i, h1⟩) =
          some (vs.get ⟨i, h2⟩)) :=
  ⟨convert_named_params_rewrites_placeholders.1 "INSERT INTO T(k,v) VALUES(:k,:v)"
      [⟨"k", (1 : Int)⟩, ⟨"v", 2⟩] (by decide) (by decide),
   convert_named_params_rewrites_placeholders.2 "a=@x AND b=:y"
      [⟨"x", (1 : Int)⟩, ⟨"y", 2⟩] (by decide) (by decide)⟩

open MsSqlDataBase in
/-- Claim C2: when `in_transaction` is false as `execute` runs, the new
pending view is committed to the store immediately; when a transaction is
open on a live connection, the store is untouched and the effect stays
pending on the connection. -/
theorem execute_commit_policy {σ α : Type} (app : σ → String → List α → σ × Int)
    (s : Exec σ) (sql sql2 : String) (params : Option (List (MsSqlParameter α)))
    (vals : List α)
    (hok : process_parameters sql params = Except.ok (sql2, vals)) :
    (s.in_transaction = false →
      execute app s sql params =
        ({ store := (app (s.conn.getD s.store) sql2 vals).1,
           conn := some (app (s.conn.getD s.store) sql2 vals).1,
           in_transaction := false },
         .ok (app (s.conn.getD s.store) sql2 vals).2)) ∧
    (∀ p, s.conn = some p → s.in_transaction = true →
      execute app s sql params =
        ({ store := s.store, conn := some (app p sql2 vals).1,
           in_transaction := true },
         .ok (app p sql2 vals).2)) := by
  constructor
  · intro hf
    cases hc : s.conn with
    | none => simp [execute, connect, hc, hok, hf]
    | some p => simp [execute, connect, hc, hok, hf]
  · intro p hp ht
    simp [execute, connect, hp, hok, ht]

/-- Claim C2, witness: a concrete run on a store that records executed
statements, once in auto-commit mode and once inside a transaction. -/
theorem execute_commit_policy_witness :
    (MsSqlDataBase.process_parameters ":x" (some [⟨"x", (7 : Int)⟩]) =
      Except.ok ("?", [7])) ∧
    (MsSqlDataBase.execute (fun st q _ => (st ++ [q], 1))
        ⟨["init"], none, false⟩ ":x" (some [⟨"x", (7 : Int)⟩]) =
      ({ store := ["init", "?"], conn := some ["init", "?"],
         in_transaction := false }, .ok 1)) ∧
    (MsSqlDataBase.execute (fun st q _ => (st ++ [q], 1))
        ⟨["init"], some ["init"], true⟩ ":x" (some [⟨"x", (7 : Int)⟩]) =
      ({ store := ["init"], conn := some ["init", "?"],
         in_transaction := true }, .ok 1)) :=
  ⟨by decide,
   (execute_commit_policy (fun st q _ => (st ++ [q], 1))
      ⟨["init"], none, false⟩ ":x" "?" (some [⟨"x", (7 : Int)⟩]) [7]
      (by decide)).1 rfl,
   (execute_commit_policy (fun st q _ => (st ++ [q], 1))
      ⟨["init"], some ["init"], true⟩ ":x" "?" (some [⟨"x", (7 : Int)⟩]) [7]
      (by decide)).2 ["init"] rfl rfl⟩

open MsSqlDataBase in
/-- Claim C3: from a state whose connection (if any) carries no pending
uncommitted work, `begin_transaction; execute q1; execute q2; rollback`
leaves the committed store as it was, while ending in `commit` instead
publishes the effects of both statements at once; the store is still
untouched before that commit. -/
theorem transaction_rollback_commit_law {σ α : Type}
    (app : σ → String → List α → σ × Int) (s : Exec σ) (q1 q2 : String)
    (hclean : s.conn = none ∨ s.conn = some s.store) :
    (execute app (execute app (begin_transaction s) q1 none).1 q2 none).1.store
        = s.store ∧
    (rollback (execute app (execute app (begin_transaction s) q1 none).1 q2 none).1).store
        = s.store ∧
    (rollback (execute app (execute app (begin_transaction s) q1 none).1 q2 none).1).conn
        = some s.store ∧
    commit (execute app (execute app (begin_transaction s) q1 none).1 q2 none).1
        = .ok { store := (app (app s.store q1 []).1 q2 []).1,
                conn := some (app (app s.store q1 []).1 q2 []).1,
                in_transaction := false } := by
  rcases hclean with hc | hc <;>
    simp [execute, begin_transaction, connect, rollback, commit,
      process_parameters, hc]

/-- Claim C3, witness: the two-statement transaction on the recording
store, rolled back and committed. -/
theorem transaction_rollback_commit_law_witness :
    ((⟨["d"], none, false⟩ : Exec (List String)).conn = none ∨
      (⟨["d"], none, false⟩ : Exec (List String)).conn = some ["d"]) ∧
    ((MsSqlDataBase.execute (fun st q (_ : List Int) => (st ++ [q], 1))
        (MsSqlDataBase.execute (fun st q (_ : List Int) => (st ++ [q], 1))
          (MsSqlDataBase.begin_transaction ⟨["d"], none, false⟩) "a" none).1
        "b" none).1.store = ["d"] ∧
      (MsSqlDataBase.rollback
        (MsSqlDataBase.execute (fun st q (_ : List Int) => (st ++ [q], 1))
          (MsSqlDataBase.execute (fun st q (_ : List Int) => (st ++ [q], 1))
            (MsSqlDataBase.begin_transaction ⟨["d"], none, false⟩) "a" none).1
          "b" none).1).store = ["d"] ∧
      (MsSqlDataBase.rollback
        (MsSqlDataBase.execute (fun st q (_ : List Int) => (st ++ [q], 1))
          (MsSqlDataBase.execute (fun st q (_ : List Int) => (st ++ [q], 1))
            (MsSqlDataBase.begin_transaction ⟨["d"], none, false⟩) "a" none).1
          "b" none).1).conn = some ["d"] ∧
      MsSqlDataBase.commit
        (MsSqlDataBase.execute (fun st q (_ : List Int) => (st ++ [q], 1))
          (MsSqlDataBase.execute (fun st q (_ : List Int) => (st ++ [q], 1))
            (MsSqlDataBase.begin_transaction ⟨["d"], none, false⟩) "a" none).1
          "b" none).1
        = .ok { store := ["d", "a", "b"], conn := some ["d", "a", "b"],
                in_transaction := false }) :=
  ⟨Or.inl rfl,
   transaction_rollback_commit_law (fun st q (_ : List Int) => (st ++ [q], 1))
     ⟨["d"], none, false⟩ "a" "b" (Or.inl rfl)⟩

open MsSqlDataBase in
/-- Claim C5: `close` on a live connection with an open transaction rolls
back implicitly, so `begin_transaction; execute q; close` leaves the
committed store unchanged; `close` then clears the handle and the flag; with
no connection `close` is a no-op. -/
theorem close_safety {σ α : Type} (app : σ → String → List α → σ × Int)
    (s : Exec σ) (sql : String) :
    (s.conn = none → close s = s) ∧
    (∀ p, s.conn = some p →
      close s = { store := s.store, conn := none, in_transaction := false }) ∧
    close (execute app (begin_transaction s) sql none).1
      = { store := s.store, conn := none, in_transaction := false } := by
  refine ⟨fun hc => by simp [close, hc], fun p hp => ?_, ?_⟩
  · cases hT : s.in_transaction <;> simp [close, hp, hT]
  · cases hc : s.conn with
    | none =>
      simp [execute, begin_transaction, connect, close, process_parameters, hc]
    | some p =>
      simp [execute, begin_transaction, connect, close, process_parameters, hc]

/-- Claim C5, witness: the close-safety law on the recording store, from a
fresh unconnected state. -/
theorem close_safety_witness :
    ((⟨["d"], none, false⟩ : Exec (List String)).conn = none →
      MsSqlDataBase.close ⟨["d"], none, false⟩ = ⟨["d"], none, false⟩) ∧
    (∀ p, (⟨["d"], none, false⟩ : Exec (List String)).conn = some p →
      MsSqlDataBase.close ⟨["d"], none, false⟩ =
        { store := ["d"], conn := none, in_transaction := false }) ∧
    MsSqlDataBase.close
      (MsSqlDataBase.execute (fun st q (_ : List Int) => (st ++ [q], 1))
        (MsSqlDataBase.begin_transaction ⟨["d"], none, false⟩) "a" none).1
      = { store := ["d"], conn := none, in_transaction := false } :=
  close_safety (fun st q (_ : List Int) => (st ++ [q], 1)) ⟨["d"], none, false⟩ "a"

/-- Claim C4, counterexample: on `":y AND :x"` with only `z` supplied, the
identifier `x` is referenced and unbound, but the `KeyError` of
`[param_dict[name] for name in matches]` names the first unbound match `y`,
not `x` — so the claim, which demands an error naming `X` for every
unbound referenced `X`, fails at `X = "x"`. -/
theorem unbound_parameter_error_counterexample :
    MsSqlDataBase.execute (fun st q (_ : List Int) => (st ++ [q], 1))
        (⟨["d"], none, false⟩ : Exec (List String)) ":y AND :x"
        (some [⟨"z", (0 : Int)⟩]) =
      (MsSqlDataBase.connect ⟨["d"], none, false⟩,
        .error (DBError.unboundParameter "y")) ∧
    ("x" ∈ mssqlFindall ":y AND :x" ∧
      paramDictLookup [⟨"z", (0 : Int)⟩] "x" = none) ∧
    (MsSqlDataBase.execute (fun st q (_ : List Int) => (st ++ [q], 1))
        (⟨["d"], none, false⟩ : Exec (List String)) ":y AND :x"
        (some [⟨"z", (0 : Int)⟩])).2 ≠
      .error (DBError.unboundParameter "x") := by
  decide

open MsSqlDataBase in
/-- Claim C4, amended: a statement referencing an unbound identifier makes
`execute`, `fetch_one` and `fetch_all` fail with the unbound-parameter
error naming the first referenced identifier with no matching parameter
(`List.find?` of the unbound predicate over the matches, so every earlier
match is bound) — in particular naming `X` whenever `X` is the only
unbound one — and the instance state is exactly the connected state: the
statement never reaches the engine. -/
theorem unbound_parameter_error {σ α : Type}
    (app : σ → String → List α → σ × Int)
    (runQuery : σ → String → List α → List String × List (List α))
    (s : Exec σ) (sql : String) (ps : List (MsSqlParameter α)) (X : String)
    (hne : ps ≠ []) (href : X ∈ mssqlFindall sql)
    (hunb : paramDictLookup ps X = none) :
    ∃ n, ((mssqlFindall sql).find? fun m => (paramDictLookup ps m).isNone)
        = some n ∧
      n ∈ mssqlFindall sql ∧ paramDictLookup ps n = none ∧
      ((∀ m ∈ mssqlFindall sql, paramDictLookup ps m = none → m = X) → n = X) ∧
      execute app s sql (some ps) =
        (connect s, .error (.unboundParameter n)) ∧
      fetch_one runQuery s sql (some ps) =
        (connect s, .error (.unboundParameter n)) ∧
      fetch_all runQuery s sql (some ps) =
        (connect s, .error (.unboundParameter n)) := by
  obtain ⟨n, hfind, hmem, hn, herr⟩ :=
    lookupValues_error_of_unbound ps (mssqlFindall sql) ⟨X, href, hunb⟩
  have hemp : ps.isEmpty = false := by simpa [List.isEmpty_iff] using hne
  have hproc : process_parameters sql (some ps) =
      .error (.unboundParameter n) := by
    simp [process_parameters, hemp, convert_named_params, herr]
  refine ⟨n, hfind, hmem, hn, fun huniq => huniq n hmem hn, ?_, ?_, ?_⟩ <;>
    cases hc : s.conn <;>
      simp [execute, fetch_one, fetch_all, connect, hc, hproc]

/-- Claim C4, witness: `":a AND :b"` with only `a` bound; the error names
`b`, the first (and single) unbound identifier. -/
theorem unbound_parameter_error_witness :
    ∃ n, ((mssqlFindall ":a AND :b").find? fun m =>
        (paramDictLookup [⟨"a", (1 : Int)⟩] m).isNone) = some n ∧
      n ∈ mssqlFindall ":a AND :b" ∧
      paramDictLookup [⟨"a", (1 : Int)⟩] n = none ∧
      ((∀ m ∈ mssqlFindall ":a AND :b",
          paramDictLookup [⟨"a", (1 : Int)⟩] m = none → m = "b") → n = "b") ∧
      MsSqlDataBase.execute (fun st q _ => (st ++ [q], 1))
          (⟨["d"], none, false⟩ : Exec (List String)) ":a AND :b"
          (some [⟨"a", (1 : Int)⟩]) =
        (MsSqlDataBase.connect ⟨["d"], none, false⟩,
          .error (.unboundParameter n)) ∧
      MsSqlDataBase.fetch_one (fun _ _ _ => (["c"], [[(0 : Int)]]))
          (⟨["d"], none, false⟩ : Exec (List String)) ":a AND :b"
          (some [⟨"a", (1 : Int)⟩]) =
        (MsSqlDataBase.connect ⟨["d"], none, false⟩,
          .error (.unboundParameter n)) ∧
      MsSqlDataBase.fetch_all (fun _ _ _ => (["c"], [[(0 : Int)]]))
          (⟨["d"], none, false⟩ : Exec (List String)) ":a AND :b"
          (some [⟨"a", (1 : Int)⟩]) =
        (MsSqlDataBase.connect ⟨["d"], none, false⟩,
          .error (.unboundParameter n)) :=
  unbound_parameter_error (fun st q _ => (st ++ [q], 1))
    (fun _ _ _ => (["c"], [[(0 : Int)]])) ⟨["d"], none, false⟩
    ":a AND :b" [⟨"a", (1 : Int)⟩] "b" (by decide) (by decide) (by decide)

open MsSqlDataBase in
/-- Claim C6: `commit` with no connection fails with the
no-active-connection error while `rollback` with no connection raises no
error and (the flag being false on a connectionless instance) changes
nothing; with a live connection both succeed and reset `in_transaction`. -/
theorem commit_rollback_connection_rules {σ : Type} (s : Exec σ)
    (hinv : s.conn = none → s.in_transaction = false) :
    (s.conn = none →
      commit s = .error DBError.noActiveConnection ∧ rollback s = s) ∧
    (∀ p, s.conn = some p →
      (∃ t, commit s = .ok t ∧ t.in_transaction = false) ∧
      (rollback s).in_transaction = false) := by
  constructor
  · intro hc
    refine ⟨by simp [commit, hc], ?_⟩
    cases s with
    | mk st cn tr => simp_all [rollback]
  · intro p hp
    exact ⟨⟨{ s with store := p, conn := some p, in_transaction := false },
      by simp [commit, hp], rfl⟩, by simp [rollback, hp]⟩

/-- Claim C6, witness: the rules applied to a connectionless instance and
to one holding a live connection. -/
theorem commit_rollback_connection_rules_witness :
    (((⟨["d"], none, false⟩ : Exec (List String)).conn = none →
      MsSqlDataBase.commit ⟨["d"], none, false⟩ =
          .error DBError.noActiveConnection ∧
        MsSqlDataBase.rollback ⟨["d"], none, false⟩ = ⟨["d"], none, false⟩) ∧
     (∀ p, (⟨["d"], none, false⟩ : Exec (List String)).conn = some p →
      (∃ t, MsSqlDataBase.commit ⟨["d"], none, false⟩ = .ok t ∧
          t.in_transaction = false) ∧
        (MsSqlDataBase.rollback ⟨["d"], none, false⟩).in_transaction = false)) ∧
    ((((⟨["d"], some ["p"], true⟩ : Exec (List String)).conn = none →
      MsSqlDataBase.commit ⟨["d"], some ["p"], true⟩ =
          .error DBError.noActiveConnection ∧
        MsSqlDataBase.rollback ⟨["d"], some ["p"], true⟩ =
          ⟨["d"], some ["p"], true⟩) ∧
     (∀ p, (⟨["d"], some ["p"], true⟩ : Exec (List String)).conn = some p →
      (∃ t, MsSqlDataBase.commit ⟨["d"], some ["p"], true⟩ = .ok t ∧
          t.in_transaction = false) ∧
        (MsSqlDataBase.rollback ⟨["d"], some ["p"], true⟩).in_transaction =
          false))) :=
  ⟨commit_rollback_connection_rules ⟨["d"], none, false⟩ (fun _ => rfl),
   commit_rollback_connection_rules ⟨["d"], some ["p"], true⟩ (by decide)⟩

open MsSqlDataBase in
/-- Claim C7: a query with an empty result makes `fetch_all` return the
empty sequence and `fetch_one` return `none`; a nonempty result makes each
returned row the zip of the column names with the row values. -/
theorem fetch_result_shape {σ α : Type}
    (runQuery : σ → String → List α → List String × List (List α))
    (s : Exec σ) (sql sql2 : String) (params : Option (List (MsSqlParameter α)))
    (vals : List α) (cols : List String) (rows : List (List α))
    (hok : process_parameters sql params = Except.ok (sql2, vals))
    (hq : runQuery (s.conn.getD s.store) sql2 vals = (cols, rows)) :
    (rows = [] →
      fetch_all runQuery s sql params = (connect s, .ok []) ∧
      fetch_one runQuery s sql params = (connect s, .ok none)) ∧
    (∀ r rs, rows = r :: rs →
      fetch_all runQuery s sql params =
        (connect s, .ok ((r :: rs).map (dictZip cols))) ∧
      fetch_one runQuery s sql params =
        (connect s, .ok (some (dictZip cols r)))) := by
  constructor
  · rintro rfl
    cases hc : s.conn <;>
      simp_all [fetch_all, fetch_one, connect, hok]
  · rintro r rs rfl
    cases hc : s.conn <;>
      simp_all [fetch_all, fetch_one, connect, hok]

/-- Claim C7, witness: one query returning no rows and one returning two
rows, on a concrete store. -/
theorem fetch_result_shape_witness :
    (MsSqlDataBase.fetch_all
        (fun (_ : List String) (_ : String) (_ : List Int) => (["c1", "c2"], []))
        ⟨["d"], none, false⟩ "q" none =
      (MsSqlDataBase.connect ⟨["d"], none, false⟩, .ok []) ∧
     MsSqlDataBase.fetch_one
        (fun (_ : List String) (_ : String) (_ : List Int) => (["c1", "c2"], []))
        ⟨["d"], none, false⟩ "q" none =
      (MsSqlDataBase.connect ⟨["d"], none, false⟩, .ok none)) ∧
    (MsSqlDataBase.fetch_all
        (fun (_ : List String) (_ : String) (_ : List Int) =>
          (["c1", "c2"], [[1, 2], [3, 4]]))
        ⟨["d"], none, false⟩ "q" none =
      (MsSqlDataBase.connect ⟨["d"], none, false⟩,
        .ok ([[1, 2], [3, 4]].map (MsSqlDataBase.dictZip ["c1", "c2"]))) ∧
     MsSqlDataBase.fetch_one
        (fun (_ : List String) (_ : String) (_ : List Int) =>
          (["c1", "c2"], [[1, 2], [3, 4]]))
        ⟨["d"], none, false⟩ "q" none =
      (MsSqlDataBase.connect ⟨["d"], none, false⟩,
        .ok (some (MsSqlDataBase.dictZip ["c1", "c2"] [1, 2])))) :=
  ⟨(fetch_result_shape
      (fun (_ : List String) (_ : String) (_ : List Int) => (["c1", "c2"], []))
      ⟨["d"], none, false⟩ "q" "q" none [] ["c1", "c2"] [] rfl rfl).1 rfl,
   (fetch_result_shape
      (fun (_ : List String) (_ : String) (_ : List Int) =>
        (["c1", "c2"], [[1, 2], [3, 4]]))
      ⟨["d"], none, false⟩ "q" "q" none [] ["c1", "c2"] [[1, 2], [3, 4]]
      rfl rfl).2 [1, 2] [[3, 4]] rfl⟩

/-- Claim C8: `_convert_named_params`, viewed as the method it is, is
deterministic and side-effect free: running it twice on the same statement
and parameters yields the same result both times, and neither run changes
the instance state — in particular `in_transaction` and the connection
handle. -/
theorem convert_named_params_pure {σ α : Type} (s : Exec σ) (sql : String)
    (params : List (MsSqlParameter α)) :
    (MsSqlDataBase.convert_named_params_method
        (MsSqlDataBase.convert_named_params_method s sql params).1 sql params).2 =
      (MsSqlDataBase.convert_named_params_method s sql params).2 ∧
    (MsSqlDataBase.convert_named_params_method
        (MsSqlDataBase.convert_named_params_method s sql params).1 sql params).1 = s ∧
    (MsSqlDataBase.convert_named_params_method s sql params).1.in_transaction =
      s.in_transaction ∧
    (MsSqlDataBase.convert_named_params_method s sql params).1.conn = s.conn :=
  ⟨rfl, rfl, rfl, rfl⟩

open MsSqlDataBase in
/-- Claim C9: `fetch_one` and `fetch_all` never commit or roll back — the
committed store is untouched — and, on any instance whose flag can only be
raised while a connection exists, `in_transaction` is unchanged, whether or
not a transaction is open. -/
theorem fetch_preserves_transaction_state {σ α : Type}
    (runQuery : σ → String → List α → List String × List (List α))
    (s : Exec σ) (sql : String) (params : Option (List (MsSqlParameter α)))
    (hinv : s.conn = none → s.in_transaction = false) :
    (fetch_one runQuery s sql params).1.store = s.store ∧
    (fetch_one runQuery s sql params).1.in_transaction = s.in_transaction ∧
    (fetch_all runQuery s sql params).1.store = s.store ∧
    (fetch_all runQuery s sql params).1.in_transaction = s.in_transaction := by
  cases hc : s.conn with
  | none => simp [fetch_one, fetch_all, connect, hc, hinv hc]
  | some p => simp [fetch_one, fetch_all, connect, hc]

/-- Claim C9, witness: a fetch on an instance with an open transaction
leaves store and flag alone. -/
theorem fetch_preserves_transaction_state_witness :
    (MsSqlDataBase.fetch_one
        (fun (_ : List String) (_ : String) (_ : List Int) => (["c"], []))
        ⟨["d"], some ["p"], true⟩ "q" none).1.store = ["d"] ∧
    (MsSqlDataBase.fetch_one
        (fun (_ : List String) (_ : String) (_ : List Int) => (["c"], []))
        ⟨["d"], some ["p"], true⟩ "q" none).1.in_transaction = true ∧
    (MsSqlDataBase.fetch_all
        (fun (_ : List String) (_ : String) (_ : List Int) => (["c"], []))
        ⟨["d"], some ["p"], true⟩ "q" none).1.store = ["d"] ∧
    (MsSqlDataBase.fetch_all
        (fun (_ : List String) (_ : String) (_ : List Int) => (["c"], []))
        ⟨["d"], some ["p"], true⟩ "q" none).1.in_transaction = true :=
  fetch_preserves_transaction_state
    (fun (_ : List String) (_ : String) (_ : List Int) => (["c"], []))
    ⟨["d"], some ["p"], true⟩ "q" none (by decide)

/-- The implicit invariant of claim C10: the transaction flag can only be
raised while a connection exists. -/
def ConnInv {σ : Type} (s : Exec σ) : Prop :=
  s.conn = none → s.in_transaction = false

open MsSqlDataBase in
/-- Claim C10: the invariant holds on a fresh instance and is preserved by
every operation: `close` keeps it, and every other operation reestablishes
it from any state whatsoever. -/
theorem conn_invariant_preserved {σ α : Type}
    (app : σ → String → List α → σ × Int)
    (runQuery : σ → String → List α → List String × List (List α))
    (store0 : σ) (s : Exec σ) (sql : String)
    (params : Option (List (MsSqlParameter α))) (hinv : ConnInv s) :
    ConnInv (init store0) ∧
    ConnInv (connect s) ∧
    ConnInv (begin_transaction s) ∧
    ConnInv (execute app s sql params).1 ∧
    ConnInv (fetch_one runQuery s sql params).1 ∧
    ConnInv (fetch_all runQuery s sql params).1 ∧
    (∀ t, commit s = .ok t → ConnInv t) ∧
    ConnInv (rollback s) ∧
    ConnInv (close s) := by
  refine ⟨fun _ => rfl, ?_, ?_, ?_, ?_, ?_, ?_, ?_, ?_⟩
  · cases hc : s.conn <;> simp [ConnInv, connect, hc]
  · cases hc : s.conn <;> simp [ConnInv, begin_transaction, connect, hc]
  · cases hc : s.conn with
    | none =>
      cases hp : process_parameters sql params (α := α) with
      | error e => simp [ConnInv, execute, connect, hc, hp]
      | ok r =>
        obtain ⟨sql2, vals⟩ := r
        simp [ConnInv, execute, connect, hc, hp]
    | some p =>
      cases hp : process_parameters sql params (α := α) with
      | error e => simp [ConnInv, execute, connect, hc, hp, hinv]
      | ok r =>
        obtain ⟨sql2, vals⟩ := r
        cases ht : s.in_transaction <;>
          simp [ConnInv, execute, connect, hc, hp, ht]
  · cases hc : s.conn <;> simp [ConnInv, fetch_one, connect, hc, hinv]
  · cases hc : s.conn <;> simp [ConnInv, fetch_all, connect, hc, hinv]
  · intro t ht
    cases hc : s.conn with
    | none => simp [commit, hc] at ht
    | some p =>
      simp [commit, hc] at ht
      simp [ConnInv, ← ht]
  · cases hc : s.conn <;> simp [ConnInv, rollback, hc]
  · cases hc : s.conn with
    | none => simpa [ConnInv, close, hc] using hinv
    | some p => cases hT : s.in_transaction <;> simp [ConnInv, close, hc, hT]

/-- Claim C10, witness: the preservation conjunction at a concrete
instance, store, statement and engine. -/
theorem conn_invariant_preserved_witness :
    ConnInv (MsSqlDataBase.init ["d"]) ∧
    ConnInv (MsSqlDataBase.connect ⟨["d"], none, false⟩) ∧
    ConnInv (MsSqlDataBase.begin_transaction ⟨["d"], none, false⟩) ∧
    ConnInv (MsSqlDataBase.execute (fun st q (_ : List Int) => (st ++ [q], 1))
      ⟨["d"], none, false⟩ "q" none).1 ∧
    ConnInv (MsSqlDataBase.fetch_one
      (fun (_ : List String) (_ : String) (_ : List Int) => (["c"], []))
      ⟨["d"], none, false⟩ "q" none).1 ∧
    ConnInv (MsSqlDataBase.fetch_all
      (fun (_ : List String) (_ : String) (_ : List Int) => (["c"], []))
      ⟨["d"], none, false⟩ "q" none).1 ∧
    (∀ t, MsSqlDataBase.commit (⟨["d"], none, false⟩ : Exec (List String)) = .ok t →
      ConnInv t) ∧
    ConnInv (MsSqlDataBase.rollback (⟨["d"], none, false⟩ : Exec (List String))) ∧
    ConnInv (MsSqlDataBase.close (⟨["d"], none, false⟩ : Exec (List String))) :=
  conn_invariant_preserved (fun st q (_ : List Int) => (st ++ [q], 1))
    (fun (_ : List String) (_ : String) (_ : List Int) => (["c"], []))
    ["d"] ⟨["d"], none, false⟩ "q" none (fun _ => rfl)
